import Mathlib

/-!
Verification of `photo_renamer` (`src/main.py`): a script that renames
photos in a folder from their EXIF capture date and (reverse-geocoded) GPS
location.

Embedding conventions:
* An `exifread` tag value (`IfdTag.values`) is modelled by `TagValue`:
  a string, a list of rationals (`Ratio` components of a GPS tag), or
  `noValues` for an object without a usable `values` attribute (the
  `AttributeError` cases the code catches).
* The tag mapping returned by `exifread.process_file` is an association
  list `Tags` with `tagGet` as dictionary lookup.
* Python `float` arithmetic on `Ratio`s is modelled exactly over `ℚ`.
* A function that can raise an uncaught Python exception returns
  `Except Unit α`; `.error ()` is an uncaught exception (process abort).
* Python strings are manipulated through their character lists:
  `pySplit` is `str.split(sep)`, mapping `Char` by `Char` is
  `str.replace(c, d)` for single characters, `List.isSuffixOf` is
  `str.endswith`.
* External collaborators are parameters: the reverse geocoder is a
  function `ℚ → ℚ → Option String` (`none` = lookup failure / no result),
  the tag reader is a function `String → Tags`, and the filesystem rename
  is modelled by returning the composed new name.
-/

deriving instance DecidableEq for Except

/-- `exifread` tag value, as far as `main.py` inspects it. -/
inductive TagValue where
  | str (s : String)
  | rats (xs : List ℚ)
  | noValues
deriving DecidableEq

/-- The tag mapping produced by `exifread.process_file`. -/
def Tags := List (String × TagValue)

instance : DecidableEq Tags := by
  unfold Tags
  infer_instance

/-- Python dictionary lookup `tags[key]` / `key in tags`. -/
def tagGet (tags : Tags) (key : String) : Option TagValue :=
  List.lookup key tags

/-- `Tags.isEmpty`, Python truthiness of the tag dict (`if not exif_data`). -/
def tagsEmpty (tags : Tags) : Bool :=
  List.isEmpty tags

/-- Python `str.split(sep)` on a character list: always returns at least
one segment, keeps empty segments. -/
def pySplit (sep : Char) : List Char → List (List Char)
  | [] => [[]]
  | c :: cs =>
    if c = sep then
      [] :: pySplit sep cs
    else
      match pySplit sep cs with
      | [] => [[c]]
      | g :: gs => (c :: g) :: gs

/-- `ParsedExif` named tuple from `main.py` (the spec's `ParsedMetadata`). -/
structure ParsedExif where
  date : Option String
  address : Option String
deriving DecidableEq

/-- Python truthiness of an `Optional[str]`: `None` and `""` are falsy. -/
def strTruthy : Option String → Bool
  | none => false
  | some s => !(List.isEmpty s.data)

/-- `get_exif_date` (main.py lines 38-44):
`date_tag.values.split(' ')[0].replace(':', '-')`, returning `None` when
`values` is not a string (the `AttributeError` is swallowed). -/
def get_exif_date : TagValue → Option String
  | TagValue.str s =>
      some (String.mk (((pySplit ' ' s.data).headD []).map
        (fun c => if c = ':' then '-' else c)))
  | _ => none

/-- `get_get_gps_coords` (main.py lines 46-57): decimal degrees from a
degrees/minutes/seconds component list and a hemisphere reference tag.
Only `AttributeError` (a tag without `values`) is caught and turned into
`None`; a string-valued GPS tag or a component list shorter than three
raises an uncaught `TypeError`/`ValueError`/`IndexError` (`.error ()`). -/
def get_get_gps_coords (gps_tag gps_ref : TagValue) : Except Unit (Option ℚ) :=
  match gps_tag with
  | TagValue.noValues => Except.ok none
  | TagValue.str _ => Except.error ()
  | TagValue.rats xs =>
    match xs with
    | d :: m :: s :: _ =>
      let coord := d + m / 60 + s / 3600
      match gps_ref with
      | TagValue.noValues => Except.ok none
      | TagValue.str r =>
          Except.ok (some (if r = "S" ∨ r = "W" then -coord else coord))
      | TagValue.rats _ => Except.ok (some coord)
    | _ => Except.error ()

/-- The date-selection block of `parse_exif_data` (main.py lines 61-68):
priority chain `EXIF DateTimeOriginal`, `EXIF DateTimeDigitized`,
`EXIF SceneCaptureType`, else `None`. -/
def extract_date (tags : Tags) : Option String :=
  match tagGet tags "EXIF DateTimeOriginal" with
  | some v => get_exif_date v
  | none =>
    match tagGet tags "EXIF DateTimeDigitized" with
    | some v => get_exif_date v
    | none =>
      match tagGet tags "EXIF SceneCaptureType" with
      | some v => get_exif_date v
      | none => none

/-- `get_address` (main.py lines 81-88): reverse-geocode and keep
`location.address.split(',')[0]`. The external service is the parameter
`reverse`; when it produces no location (`None` / network failure) the
attribute access raises an uncaught exception (`.error ()`). -/
def get_address (reverse : ℚ → ℚ → Option String) (lat lon : ℚ) :
    Except Unit String :=
  match reverse lat lon with
  | none => Except.error ()
  | some s => Except.ok (String.mk ((pySplit ',' s.data).headD []))

/-- The GPS/address block of `parse_exif_data` (main.py lines 70-76),
with Python's evaluation order: each dictionary lookup in turn (a missing
key jumps to the `except KeyError` arm, address `None`), each coordinate
decode in turn (an uncaught exception aborts), then
`get_address(latitude, longitude) if latitude and longitude else None`
where Python truthiness makes `None` and `0.0` falsy. -/
def gps_address (reverse : ℚ → ℚ → Option String) (tags : Tags) :
    Except Unit (Option String) :=
  match tagGet tags "GPS GPSLatitude" with
  | none => Except.ok none
  | some latTag =>
  match tagGet tags "GPS GPSLatitudeRef" with
  | none => Except.ok none
  | some latRef =>
  match get_get_gps_coords latTag latRef with
  | Except.error e => Except.error e
  | Except.ok latitude =>
  match tagGet tags "GPS GPSLongitude" with
  | none => Except.ok none
  | some lonTag =>
  match tagGet tags "GPS GPSLongitudeRef" with
  | none => Except.ok none
  | some lonRef =>
  match get_get_gps_coords lonTag lonRef with
  | Except.error e => Except.error e
  | Except.ok longitude =>
  match latitude, longitude with
  | some la, some lo =>
    if la ≠ 0 ∧ lo ≠ 0 then
      match get_address reverse la lo with
      | Except.error e => Except.error e
      | Except.ok a => Except.ok (some a)
    else Except.ok none
  | _, _ => Except.ok none

/-- `parse_exif_data` (main.py lines 59-79): the date block then the
GPS/address block, bundled into `ParsedExif`. -/
def parse_exif_data (reverse : ℚ → ℚ → Option String) (tags : Tags) :
    Except Unit ParsedExif :=
  match gps_address reverse tags with
  | Except.error e => Except.error e
  | Except.ok address => Except.ok ⟨extract_date tags, address⟩

/-- The photo extension allowlist of `get_photo_files` (main.py line 29). -/
def photo_extensions : List String := [".jpg", ".jpeg", ".heic"]

/-- `get_photo_files` (main.py lines 26-30):
`[f for f in file_names if f.lower().endswith(photo_extensions)]`. -/
def get_photo_files (file_names : List String) : List String :=
  file_names.filter
    (fun f => photo_extensions.any
      (fun e => List.isSuffixOf e.data (f.data.map Char.toLower)))

/-- `rename_photo` (main.py lines 90-99): returns the composed new file
name when a rename is performed, `none` when the file is left untouched.
Python truthiness: an empty-string date or address counts as absent. -/
def rename_photo (old_name : String) (new_name_values : ParsedExif) :
    Option String :=
  if strTruthy new_name_values.date then
    let n1 := new_name_values.date.getD ""
    let n2 := if strTruthy new_name_values.address then
        n1 ++ "-" ++ new_name_values.address.getD ""
      else n1
    some (n2 ++ "_" ++ old_name)
  else none

/-- The per-file body of the `__main__` loop (main.py lines 109-114):
read tags, skip the file when the mapping is empty, otherwise parse and
rename. `.ok none` = file left untouched, `.ok (some n)` = renamed to
`n`, `.error ()` = uncaught exception aborting the batch. -/
def process_file (reverse : ℚ → ℚ → Option String) (read_tags : String → Tags)
    (photo_file : String) : Except Unit (Option String) :=
  let exif_data := read_tags photo_file
  if tagsEmpty exif_data then Except.ok none
  else
    match parse_exif_data reverse exif_data with
    | Except.error e => Except.error e
    | Except.ok parsed => Except.ok (rename_photo photo_file parsed)

/-- Sequential processing of the candidate list in listing order,
recording `(original name, optional new name)` per file; the first
uncaught exception aborts the whole batch. -/
def run_all (reverse : ℚ → ℚ → Option String) (read_tags : String → Tags) :
    List String → Except Unit (List (String × Option String))
  | [] => Except.ok []
  | f :: fs =>
    match process_file reverse read_tags f with
    | Except.error e => Except.error e
    | Except.ok r =>
      match run_all reverse read_tags fs with
      | Except.error e => Except.error e
      | Except.ok rs => Except.ok ((f, r) :: rs)

/-- Observable outcome of a run of the script. -/
inductive MainOutcome where
  | noPhotos
  | ok (results : List (String × Option String))
  | crash
deriving DecidableEq

/-- Whether an outcome is a normal termination (exit status 0). -/
def MainOutcome.isOk : MainOutcome → Bool
  | MainOutcome.ok _ => true
  | _ => false

/-- The `__main__` block (main.py lines 102-114) over a directory listing:
`sys.exit('No photos found')` (non-success, with that message) when the
filtered candidate list is empty, otherwise the per-file loop; a normal
return is exit status 0, an uncaught exception is `crash`. -/
def main_program (reverse : ℚ → ℚ → Option String)
    (read_tags : String → Tags) (file_names : List String) : MainOutcome :=
  match get_photo_files file_names with
  | [] => MainOutcome.noPhotos
  | f :: fs =>
    match run_all reverse read_tags (f :: fs) with
    | Except.error _ => MainOutcome.crash
    | Except.ok rs => MainOutcome.ok rs

/-- A reverse geocoder that always fails (no location). -/
def geoNone : ℚ → ℚ → Option String := fun _ _ => none

/-! ## Helper lemmas -/

theorem pySplit_ne_nil (sep : Char) (l : List Char) : pySplit sep l ≠ [] := by
  induction l with
  | nil => simp [pySplit]
  | cons c cs ih =>
    simp only [pySplit]
    split
    · simp
    · split
      · simp
      · simp

theorem pySplit_headD (sep : Char) (l : List Char) :
    (pySplit sep l).headD [] = l.takeWhile (fun c => c != sep) := by
  induction l with
  | nil => rfl
  | cons c cs ih =>
    by_cases h : c = sep
    · subst h
      simp [pySplit, List.takeWhile]
    · simp only [pySplit, if_neg h]
      cases hp : pySplit sep cs with
      | nil => exact absurd hp (pySplit_ne_nil sep cs)
      | cons g gs =>
        rw [hp] at ih
        simp only [List.headD] at ih
        have hb : (c == sep) = false := by simp [h]
        simp only [bne] at ih
        simp [List.takeWhile, bne, hb, ← ih]

theorem strTruthy_iff (s : String) : strTruthy (some s) = true ↔ s ≠ "" := by
  obtain ⟨l⟩ := s
  cases l <;> simp [strTruthy, String.ext_iff]

/-! ## Claims -/

/-- Claim C1: a candidate file whose `ParsedExif` has `date = none` is never
renamed: `rename_photo` composes no new name, so the file keeps its
original name, whatever the address component is. -/
theorem C1_no_date_no_rename (old_name : String) (address : Option String) :
    rename_photo old_name ⟨none, address⟩ = none := rfl

/-- Claim C2, counterexample: with a present (`some`) but empty-string
address, the composed name omits the `"-" ++ address` part, contrary to
the claim's "address present" clause, because Python truthiness treats
`""` as absent. -/
theorem C2_counterexample :
    rename_photo "img001.jpg" ⟨some "2023-07-04", some ""⟩ =
      some "2023-07-04_img001.jpg" ∧
    rename_photo "img001.jpg" ⟨some "2023-07-04", some ""⟩ ≠
      some ("2023-07-04" ++ "-" ++ "" ++ "_" ++ "img001.jpg") := by
  constructor
  · rfl
  · decide

/-- Claim C2, amended: for a non-empty date, the composed name is
`date ++ "_" ++ original` when the address is `none` or the empty string,
and `date ++ "-" ++ address ++ "_" ++ original` when the address is a
non-empty string; the two concrete compositions of the claim hold. -/
theorem C2_compose_new_name (d a old_name : String) (hd : d ≠ "") :
    rename_photo old_name ⟨some d, none⟩ = some (d ++ "_" ++ old_name) ∧
    rename_photo old_name ⟨some d, some a⟩ =
      some (if a = "" then d ++ "_" ++ old_name
        else d ++ "-" ++ a ++ "_" ++ old_name) ∧
    rename_photo "img001.jpg" ⟨some "2023-07-04", none⟩ =
      some "2023-07-04_img001.jpg" ∧
    rename_photo "img001.jpg" ⟨some "2023-07-04", some "Springfield"⟩ =
      some "2023-07-04-Springfield_img001.jpg" := by
  have hd' : strTruthy (some d) = true := (strTruthy_iff d).mpr hd
  have hdl : ¬d.data = [] := by simpa [strTruthy] using hd'
  refine ⟨?_, ?_, by decide, by decide⟩
  · simp [rename_photo, hd', strTruthy, hdl]
  · by_cases ha : a = ""
    · subst ha
      simp [rename_photo, hd', strTruthy, hdl]
    · have ha' : strTruthy (some a) = true := (strTruthy_iff a).mpr ha
      have hal : ¬a.data = [] := by simpa [strTruthy] using ha'
      simp [rename_photo, hd', ha', strTruthy, hdl, hal, if_neg ha]

theorem C2_witness :
    rename_photo "img001.jpg" ⟨some "2023-07-04", some "Springfield"⟩ =
      some "2023-07-04-Springfield_img001.jpg" :=
  (C2_compose_new_name "2023-07-04" "Springfield" "img001.jpg" (by decide)).2.2.2

/-- Claim C6: a directory entry is selected exactly when its name,
lowercased, ends with one of the extensions `.jpg`, `.jpeg`, `.heic`;
`"Photo.JPG"` is selected, and a listing with only other extensions
yields zero candidates. -/
theorem C6_extension_filter :
    (∀ (file_names : List String) (f : String),
      f ∈ get_photo_files file_names ↔
        f ∈ file_names ∧
          photo_extensions.any
            (fun e => List.isSuffixOf e.data (f.data.map Char.toLower)) = true) ∧
    get_photo_files ["Photo.JPG"] = ["Photo.JPG"] ∧
    get_photo_files ["notes.txt", "img.png", "raw.CR2"] = [] := by
  refine ⟨?_, by decide, by decide⟩
  intro file_names f
  simp [get_photo_files, List.mem_filter]

/-- Claim C8: when the geocoding service returns an address string, the
adapter returns the prefix before the first comma; when the string has no
comma it returns the whole string; `"Springfield, Illinois, USA"` gives
exactly `"Springfield"`. -/
theorem C8_first_comma_segment (reverse : ℚ → ℚ → Option String)
    (lat lon : ℚ) (s : String) (h : reverse lat lon = some s) :
    get_address reverse lat lon =
      Except.ok (String.mk (s.data.takeWhile (fun c => c != ','))) ∧
    ((∀ c ∈ s.data, c ≠ ',') → get_address reverse lat lon = Except.ok s) ∧
    get_address (fun _ _ => some "Springfield, Illinois, USA") 1 1 =
      Except.ok "Springfield" := by
  refine ⟨?_, ?_, by decide⟩
  · simp only [get_address, h]
    rw [pySplit_headD]
  · intro hc
    have ht : s.data.takeWhile (fun c => c != ',') = s.data := by
      rw [List.takeWhile_eq_self_iff]
      intro c hcmem
      simpa using hc c hcmem
    simp only [get_address, h]
    rw [pySplit_headD, ht]

theorem C8_witness :
    get_address (fun _ _ => some "Springfield, Illinois, USA") 1 1 =
      Except.ok "Springfield" :=
  (C8_first_comma_segment (fun _ _ => some "Springfield, Illinois, USA") 1 1
    "Springfield, Illinois, USA" rfl).2.2

/-- Claim C3: the date extractor tries `EXIF DateTimeOriginal`, else
`EXIF DateTimeDigitized`, else `EXIF SceneCaptureType`, else yields
`none`; for the chosen field, a string value gives the prefix before the
first space with every `:` replaced by `-`, and a non-string value gives
`none` rather than an error. -/
theorem C3_date_priority_and_format :
    (∀ (tags : Tags) (v : TagValue),
      tagGet tags "EXIF DateTimeOriginal" = some v →
      extract_date tags = get_exif_date v) ∧
    (∀ (tags : Tags) (v : TagValue),
      tagGet tags "EXIF DateTimeOriginal" = none →
      tagGet tags "EXIF DateTimeDigitized" = some v →
      extract_date tags = get_exif_date v) ∧
    (∀ (tags : Tags) (v : TagValue),
      tagGet tags "EXIF DateTimeOriginal" = none →
      tagGet tags "EXIF DateTimeDigitized" = none →
      tagGet tags "EXIF SceneCaptureType" = some v →
      extract_date tags = get_exif_date v) ∧
    (∀ tags : Tags,
      tagGet tags "EXIF DateTimeOriginal" = none →
      tagGet tags "EXIF DateTimeDigitized" = none →
      tagGet tags "EXIF SceneCaptureType" = none →
      extract_date tags = none) ∧
    (∀ s : String,
      get_exif_date (TagValue.str s) =
        some (String.mk ((s.data.takeWhile (fun c => c != ' ')).map
          (fun c => if c = ':' then '-' else c)))) ∧
    (∀ v : TagValue, (∀ s, v ≠ TagValue.str s) → get_exif_date v = none) := by
  refine ⟨?_, ?_, ?_, ?_, ?_, ?_⟩
  · intro tags v h1
    simp [extract_date, h1]
  · intro tags v h1 h2
    simp [extract_date, h1, h2]
  · intro tags v h1 h2 h3
    simp [extract_date, h1, h2, h3]
  · intro tags h1 h2 h3
    simp [extract_date, h1, h2, h3]
  · intro s
    simp only [get_exif_date]
    rw [pySplit_headD]
  · intro v hv
    cases v with
    | str s => exact absurd rfl (hv s)
    | rats xs => rfl
    | noValues => rfl

theorem C3_witness :
    extract_date [("EXIF DateTimeOriginal",
        TagValue.str "2023:07:04 12:30:00")] = some "2023-07-04" := by
  have h := C3_date_priority_and_format.1
    [("EXIF DateTimeOriginal", TagValue.str "2023:07:04 12:30:00")]
    (TagValue.str "2023:07:04 12:30:00") (by decide)
  rw [h]
  decide

/-- Claim C10: when `EXIF DateTimeOriginal` is present with a non-string
value, the extracted date is `none` regardless of what the lower-priority
fields hold: fallback selection depends only on key presence, never on
whether parsing the chosen field succeeded. -/
theorem C10_primary_field_shadows_fallback (tags : Tags) (v : TagValue)
    (hv : tagGet tags "EXIF DateTimeOriginal" = some v)
    (hs : ∀ s, v ≠ TagValue.str s) :
    extract_date tags = none := by
  have hn : get_exif_date v = none := by
    cases v with
    | str s => exact absurd rfl (hs s)
    | rats xs => rfl
    | noValues => rfl
  simp [extract_date, hv, hn]

theorem C10_witness :
    extract_date [("EXIF DateTimeOriginal", TagValue.rats []),
      ("EXIF DateTimeDigitized", TagValue.str "2023:07:04 10:00:00")] = none ∧
    get_exif_date (TagValue.str "2023:07:04 10:00:00") = some "2023-07-04" := by
  constructor
  · exact C10_primary_field_shadows_fallback _ (TagValue.rats []) (by decide)
      (fun s h => TagValue.noConfusion h)
  · decide

/-- Claim C4, counterexample: a GPS tag that is present but has an empty
component list (no usable numeric components, hence malformed in the
claim's sense) raises an uncaught `IndexError` instead of yielding
`None`: only the `AttributeError` of a missing `values` attribute is
swallowed. -/
theorem C4_counterexample :
    get_get_gps_coords (TagValue.rats []) (TagValue.str "N") =
      Except.error () ∧
    get_get_gps_coords (TagValue.rats []) (TagValue.str "N") ≠
      Except.ok none := by
  exact ⟨rfl, by decide⟩

/-- Claim C4, amended: for every degrees/minutes/seconds triple the
decoded coordinate is `deg + min/60 + sec/3600`, negated exactly when the
hemisphere reference is `"S"` or `"W"`; for non-negative triples with
reference `"N"` or `"E"` the result is non-negative; a tag whose `values`
attribute is unusable (the swallowed `AttributeError`) yields `None`,
whether it is the value tag or the reference tag — but a value tag with
fewer than three numeric components raises instead of yielding `None`. -/
theorem C4_gps_decode (d m s : ℚ) (rest : List ℚ) (r : String)
    (ref : TagValue) :
    get_get_gps_coords (TagValue.rats (d :: m :: s :: rest)) (TagValue.str r) =
      Except.ok (some (if r = "S" ∨ r = "W" then -(d + m / 60 + s / 3600)
        else d + m / 60 + s / 3600)) ∧
    (0 ≤ d → 0 ≤ m → 0 ≤ s → r = "N" ∨ r = "E" →
      get_get_gps_coords (TagValue.rats (d :: m :: s :: rest))
          (TagValue.str r) =
        Except.ok (some (d + m / 60 + s / 3600)) ∧
      0 ≤ d + m / 60 + s / 3600) ∧
    get_get_gps_coords TagValue.noValues ref = Except.ok none ∧
    get_get_gps_coords (TagValue.rats (d :: m :: s :: rest))
      TagValue.noValues = Except.ok none := by
  refine ⟨rfl, ?_, rfl, rfl⟩
  intro hd hm hs hr
  have hne : ¬(r = "S" ∨ r = "W") := by
    rcases hr with h | h <;> subst h <;> decide
  constructor
  · simp only [get_get_gps_coords]
    rw [if_neg hne]
  · positivity

theorem C4_witness :
    get_get_gps_coords (TagValue.rats [10, 30, 0]) (TagValue.str "S") =
      Except.ok (some (-(21 / 2))) ∧
    (get_get_gps_coords (TagValue.rats [48, 51, 24]) (TagValue.str "N") =
      Except.ok (some (48 + 51 / 60 + 24 / 3600)) ∧
      (0 : ℚ) ≤ 48 + 51 / 60 + 24 / 3600) ∧
    get_get_gps_coords TagValue.noValues (TagValue.str "N") =
      Except.ok none := by
  refine ⟨?_, ?_, ?_⟩
  · have h := (C4_gps_decode 10 30 0 [] "S" TagValue.noValues).1
    rw [h]
    norm_num
  · exact (C4_gps_decode 48 51 24 [] "N" TagValue.noValues).2.1
      (by norm_num) (by norm_num) (by norm_num) (Or.inl rfl)
  · exact (C4_gps_decode 0 0 0 [] "N" (TagValue.str "N")).2.2.1

theorem gps_address_some (reverse : ℚ → ℚ → Option String) (tags : Tags)
    (a : String) (h : gps_address reverse tags = Except.ok (some a)) :
    ∃ (latTag latRef lonTag lonRef : TagValue) (la lo : ℚ) (raw : String),
      tagGet tags "GPS GPSLatitude" = some latTag ∧
      tagGet tags "GPS GPSLatitudeRef" = some latRef ∧
      tagGet tags "GPS GPSLongitude" = some lonTag ∧
      tagGet tags "GPS GPSLongitudeRef" = some lonRef ∧
      get_get_gps_coords latTag latRef = Except.ok (some la) ∧
      get_get_gps_coords lonTag lonRef = Except.ok (some lo) ∧
      la ≠ 0 ∧ lo ≠ 0 ∧
      reverse la lo = some raw ∧
      a = String.mk ((pySplit ',' raw.data).headD []) := by
  cases h1 : tagGet tags "GPS GPSLatitude" with
  | none => simp [gps_address, h1] at h
  | some latTag =>
  cases h2 : tagGet tags "GPS GPSLatitudeRef" with
  | none => simp [gps_address, h1, h2] at h
  | some latRef =>
  cases h3 : get_get_gps_coords latTag latRef with
  | error e => simp [gps_address, h1, h2, h3] at h
  | ok latitude =>
  cases h4 : tagGet tags "GPS GPSLongitude" with
  | none => simp [gps_address, h1, h2, h3, h4] at h
  | some lonTag =>
  cases h5 : tagGet tags "GPS GPSLongitudeRef" with
  | none => simp [gps_address, h1, h2, h3, h4, h5] at h
  | some lonRef =>
  cases h6 : get_get_gps_coords lonTag lonRef with
  | error e => simp [gps_address, h1, h2, h3, h4, h5, h6] at h
  | ok longitude =>
  cases latitude with
  | none => simp [gps_address, h1, h2, h3, h4, h5, h6] at h
  | some la =>
  cases longitude with
  | none => simp [gps_address, h1, h2, h3, h4, h5, h6] at h
  | some lo =>
  by_cases hz : la ≠ 0 ∧ lo ≠ 0
  · cases h7 : reverse la lo with
    | none =>
      simp [gps_address, h1, h2, h3, h4, h5, h6, hz, get_address, h7] at h
    | some raw =>
      have hconv : (pySplit ',' raw.data).headD ([] : List Char) =
          (pySplit ',' raw.data).head?.getD [] := by
        cases pySplit ',' raw.data <;> rfl
      have ha : a = String.mk ((pySplit ',' raw.data).headD []) := by
        simp [gps_address, h1, h2, h3, h4, h5, h6, hz, get_address, h7] at h
        rw [hconv]
        exact h.symm
      exact ⟨latTag, latRef, lonTag, lonRef, la, lo, raw, rfl, rfl, rfl,
        rfl, h3, h6, hz.1, hz.2, h7, ha⟩
  · simp [gps_address, h1, h2, h3, h4, h5, h6, hz] at h

theorem gps_address_missing_key (reverse reverse' : ℚ → ℚ → Option String)
    (tags : Tags)
    (hmiss : tagGet tags "GPS GPSLatitude" = none ∨
      tagGet tags "GPS GPSLatitudeRef" = none ∨
      tagGet tags "GPS GPSLongitude" = none ∨
      tagGet tags "GPS GPSLongitudeRef" = none) :
    gps_address reverse tags = gps_address reverse' tags ∧
    ∀ o, gps_address reverse tags = Except.ok o → o = none := by
  cases h1 : tagGet tags "GPS GPSLatitude" with
  | none =>
    refine ⟨by simp [gps_address, h1], ?_⟩
    intro o ho
    simp [gps_address, h1] at ho
    exact ho.symm
  | some latTag =>
  cases h2 : tagGet tags "GPS GPSLatitudeRef" with
  | none =>
    refine ⟨by simp [gps_address, h1, h2], ?_⟩
    intro o ho
    simp [gps_address, h1, h2] at ho
    exact ho.symm
  | some latRef =>
  cases h3 : get_get_gps_coords latTag latRef with
  | error e =>
    refine ⟨by simp [gps_address, h1, h2, h3], ?_⟩
    intro o ho
    simp [gps_address, h1, h2, h3] at ho
  | ok latitude =>
  cases h4 : tagGet tags "GPS GPSLongitude" with
  | none =>
    refine ⟨by simp [gps_address, h1, h2, h3, h4], ?_⟩
    intro o ho
    simp [gps_address, h1, h2, h3, h4] at ho
    exact ho.symm
  | some lonTag =>
  cases h5 : tagGet tags "GPS GPSLongitudeRef" with
  | none =>
    refine ⟨by simp [gps_address, h1, h2, h3, h4, h5], ?_⟩
    intro o ho
    simp [gps_address, h1, h2, h3, h4, h5] at ho
    exact ho.symm
  | some lonRef =>
    rcases hmiss with hm | hm | hm | hm
    · rw [h1] at hm; cases hm
    · rw [h2] at hm; cases hm
    · rw [h4] at hm; cases hm
    · rw [h5] at hm; cases hm

/-- Claim C5, amended: (a) the parsed address is `some` only when all four
GPS tags are present, both coordinates decode to non-zero values, and the
geocoding lookup returned an address string, of which the first
comma-delimited segment is kept; (b) when any of the four GPS keys is
absent from the mapping the result does not depend on the geocoder (no
geocoding call) and any successfully produced `ParsedExif` has
`address = none` — but a malformed GPS value examined before the missing
key is reached aborts parsing with an uncaught exception instead. -/
theorem C5_address_requires_gps_and_geocode :
    (∀ (reverse : ℚ → ℚ → Option String) (tags : Tags) (p : ParsedExif)
        (a : String),
      parse_exif_data reverse tags = Except.ok p →
      p.address = some a →
      ∃ (latTag latRef lonTag lonRef : TagValue) (la lo : ℚ) (raw : String),
        tagGet tags "GPS GPSLatitude" = some latTag ∧
        tagGet tags "GPS GPSLatitudeRef" = some latRef ∧
        tagGet tags "GPS GPSLongitude" = some lonTag ∧
        tagGet tags "GPS GPSLongitudeRef" = some lonRef ∧
        get_get_gps_coords latTag latRef = Except.ok (some la) ∧
        get_get_gps_coords lonTag lonRef = Except.ok (some lo) ∧
        la ≠ 0 ∧ lo ≠ 0 ∧
        reverse la lo = some raw ∧
        a = String.mk ((pySplit ',' raw.data).headD [])) ∧
    (∀ (reverse reverse' : ℚ → ℚ → Option String) (tags : Tags),
      (tagGet tags "GPS GPSLatitude" = none ∨
        tagGet tags "GPS GPSLatitudeRef" = none ∨
        tagGet tags "GPS GPSLongitude" = none ∨
        tagGet tags "GPS GPSLongitudeRef" = none) →
      parse_exif_data reverse tags = parse_exif_data reverse' tags ∧
      ∀ p, parse_exif_data reverse tags = Except.ok p →
        p.address = none) := by
  constructor
  · intro reverse tags p a hp ha
    obtain ⟨pd, pa⟩ := p
    have hg : gps_address reverse tags = Except.ok (some a) := by
      cases hga : gps_address reverse tags with
      | error e => simp [parse_exif_data, hga] at hp
      | ok o =>
        simp only [parse_exif_data, hga, Except.ok.injEq] at hp
        simp only [ParsedExif.mk.injEq] at hp
        simp only [ParsedExif.address] at ha
        rw [hp.2, ha]
    exact gps_address_some reverse tags a hg
  · intro reverse reverse' tags hmiss
    have h := gps_address_missing_key reverse reverse' tags hmiss
    constructor
    · simp [parse_exif_data, h.1]
    · intro p hp
      obtain ⟨pd, pa⟩ := p
      cases hga : gps_address reverse tags with
      | error e => simp [parse_exif_data, hga] at hp
      | ok o =>
        have ho := h.2 o hga
        subst ho
        simp only [parse_exif_data, hga, Except.ok.injEq,
          ParsedExif.mk.injEq] at hp
        simp only [ParsedExif.address]
        exact hp.2.symm

/-- Claim C5, counterexample: with `GPS GPSLatitude` present but holding
an empty component list and `GPS GPSLongitude` absent from the mapping,
parsing aborts with an uncaught `IndexError` instead of producing a
`ParsedExif` with `address = none`: the malformed latitude is examined
before the absence of the longitude key is observed. -/
theorem C5_counterexample :
    tagGet [("GPS GPSLatitude", TagValue.rats []),
      ("GPS GPSLatitudeRef", TagValue.str "N")] "GPS GPSLongitude" = none ∧
    parse_exif_data geoNone [("GPS GPSLatitude", TagValue.rats []),
      ("GPS GPSLatitudeRef", TagValue.str "N")] = Except.error () := by
  decide

theorem C5_witness :
    parse_exif_data geoNone [] =
      parse_exif_data (fun _ _ => some "Springfield") [] ∧
    ParsedExif.address ⟨none, none⟩ = none := by
  have h := C5_address_requires_gps_and_geocode.2 geoNone
    (fun _ _ => some "Springfield") [] (Or.inl (by decide))
  exact ⟨h.1, h.2 ⟨none, none⟩ (by decide)⟩

/-- Claim C9: when both GPS coordinates decode successfully but at least
one equals exactly 0 (equator or prime meridian), Python truthiness makes
`if latitude and longitude` false: no geocoding lookup is performed (the
result is the same for every geocoder) and the address is `none`. -/
theorem C9_zero_coordinate_no_geocode (reverse : ℚ → ℚ → Option String)
    (tags : Tags) (latTag latRef lonTag lonRef : TagValue) (la lo : ℚ)
    (h1 : tagGet tags "GPS GPSLatitude" = some latTag)
    (h2 : tagGet tags "GPS GPSLatitudeRef" = some latRef)
    (h3 : tagGet tags "GPS GPSLongitude" = some lonTag)
    (h4 : tagGet tags "GPS GPSLongitudeRef" = some lonRef)
    (h5 : get_get_gps_coords latTag latRef = Except.ok (some la))
    (h6 : get_get_gps_coords lonTag lonRef = Except.ok (some lo))
    (h0 : la = 0 ∨ lo = 0) :
    parse_exif_data reverse tags = Except.ok ⟨extract_date tags, none⟩ := by
  have hz : ¬(la ≠ 0 ∧ lo ≠ 0) := by tauto
  simp [parse_exif_data, gps_address, h1, h2, h3, h4, h5, h6, hz]

theorem C9_witness :
    parse_exif_data geoNone [("GPS GPSLatitude", TagValue.rats [0, 0, 0]),
      ("GPS GPSLatitudeRef", TagValue.str "N"),
      ("GPS GPSLongitude", TagValue.rats [10, 0, 0]),
      ("GPS GPSLongitudeRef", TagValue.str "E")] =
      Except.ok ⟨none, none⟩ := by
  have h := C9_zero_coordinate_no_geocode geoNone
    [("GPS GPSLatitude", TagValue.rats [0, 0, 0]),
      ("GPS GPSLatitudeRef", TagValue.str "N"),
      ("GPS GPSLongitude", TagValue.rats [10, 0, 0]),
      ("GPS GPSLongitudeRef", TagValue.str "E")]
    (TagValue.rats [0, 0, 0]) (TagValue.str "N")
    (TagValue.rats [10, 0, 0]) (TagValue.str "E") 0 10
    (by decide) (by decide) (by decide) (by decide)
    (by unfold get_get_gps_coords; norm_num)
    (by unfold get_get_gps_coords; norm_num; decide)
    (Or.inl rfl)
  rw [h]
  decide

theorem run_all_ok_fst (reverse : ℚ → ℚ → Option String)
    (read_tags : String → Tags) (fs : List String)
    (rs : List (String × Option String))
    (h : run_all reverse read_tags fs = Except.ok rs) :
    rs.map Prod.fst = fs := by
  induction fs generalizing rs with
  | nil =>
    simp [run_all] at h
    subst h
    rfl
  | cons f fs ih =>
    cases hp : process_file reverse read_tags f with
    | error e => simp [run_all, hp] at h
    | ok r =>
      cases hr : run_all reverse read_tags fs with
      | error e => simp [run_all, hp, hr] at h
      | ok rs' =>
        simp [run_all, hp, hr] at h
        subst h
        simp [ih rs' hr]

/-- Claim C7, amended: the run terminates with the "No photos found"
message and non-success status exactly when the filtered candidate list
is empty; otherwise, provided no candidate's processing raises an
uncaught exception, every candidate is processed in listing order and the
run terminates with status 0 — an uncaught per-file exception instead
aborts the whole batch without reaching normal termination. -/
theorem C7_orchestrator_exit (reverse : ℚ → ℚ → Option String)
    (read_tags : String → Tags) (file_names : List String) :
    (main_program reverse read_tags file_names = MainOutcome.noPhotos ↔
      get_photo_files file_names = []) ∧
    (∀ rs, run_all reverse read_tags (get_photo_files file_names) =
        Except.ok rs →
      get_photo_files file_names ≠ [] →
      main_program reverse read_tags file_names = MainOutcome.ok rs ∧
      rs.map Prod.fst = get_photo_files file_names) := by
  cases hf : get_photo_files file_names with
  | nil =>
    refine ⟨by simp [main_program, hf], ?_⟩
    intro rs hr hne
    exact absurd rfl hne
  | cons f fs =>
    constructor
    · constructor
      · intro hm
        cases hr : run_all reverse read_tags (f :: fs) with
        | error e => simp [main_program, hf, hr] at hm
        | ok rs => simp [main_program, hf, hr] at hm
      · intro h
        cases h
    · intro rs hr hne
      refine ⟨by simp [main_program, hf, hr], ?_⟩
      exact run_all_ok_fst reverse read_tags _ rs hr

theorem C7_witness :
    main_program geoNone (fun _ => []) ["a.jpg"] =
      MainOutcome.ok [("a.jpg", none)] ∧
    ([("a.jpg", (none : Option String))].map Prod.fst =
      get_photo_files ["a.jpg"]) := by
  have h := (C7_orchestrator_exit geoNone (fun _ => []) ["a.jpg"]).2
    [("a.jpg", none)] (by decide) (by decide)
  exact ⟨h.1, h.2.symm⟩

/-- Claim C7, counterexample: a non-empty candidate list whose single
file carries a malformed GPS latitude makes the batch abort with an
uncaught exception: the run neither reports "No photos found" nor
terminates with status 0, contradicting the claim's unconditional
"otherwise ... terminates with status 0". -/
theorem C7_counterexample :
    get_photo_files ["a.jpg"] ≠ [] ∧
    main_program geoNone
      (fun _ => [("GPS GPSLatitude", TagValue.rats []),
        ("GPS GPSLatitudeRef", TagValue.str "N")]) ["a.jpg"] =
      MainOutcome.crash ∧
    MainOutcome.isOk (main_program geoNone
      (fun _ => [("GPS GPSLatitude", TagValue.rats []),
        ("GPS GPSLatitudeRef", TagValue.str "N")]) ["a.jpg"]) = false := by
  decide
